import Mathlib

/-!
Verification development for the aiosupabase realtime subscription layer.

This file gives a shallow embedding of the realtime channel registry
(`SupabaseClient.realtime` in `aiosupabase/client.py`), the change-event
normalizer and subscription wiring (`SupabaseRealtimeClient` in
`aiosupabase/schemas/rt.py`), the auth-token fan-out
(`SupabaseClient.set_auth` together with the collaborator clients in
`schemas/pgrest.py`, `schemas/auth.py`, `schemas/funcs.py`,
`schemas/storage.py`), and the settings-resolution front of
`SupabaseClient.__init__`.  Python dicts of column values are modelled as
association lists, object identity as a numeric id drawn from a counter,
and raised exceptions as `Except` errors.
-/

namespace Aiosupabase

/-- Wire values appearing in a change-event record: a raw string as it came
off the wire, an integer, or null.  Models the dynamic values of the
Python payload dicts. -/
inductive JValue where
  | str (s : String)
  | int (n : Int)
  | null
deriving DecidableEq, Repr

/-- A row record: mapping from column name to value, as an association list
(Python dict with insertion order). -/
abbrev Row := List (String × JValue)

/-- Column-type metadata carried by a raw realtime payload
(`payload.columns`): column name and declared type. -/
structure Column where
  name : String
  type : String
deriving DecidableEq, Repr

/-- A raw realtime wire payload as received by the callbacks in
`SupabaseRealtimeClient` (`rt.py`): event kind (`payload.type`), schema,
table, commit timestamp, current row (`payload.record`), previous row
(`payload.old_record`) and column metadata (`payload.columns`). -/
structure Payload where
  type : String
  schema : String
  table : String
  commit_timestamp : String
  record : Row
  old_record : Row
  columns : List Column
deriving DecidableEq, Repr

/-- Modelled from the spec: parsing of an integer wire string (the
string-to-declared-type conversion of section 4.3), as a plain decimal
parser over the string's characters; returns none on a malformed string. -/
def parse_wire_int (s : String) : Option Int :=
  match s.data with
  | [] => none
  | '-' :: rest =>
    if rest ≠ [] ∧ rest.all Char.isDigit then
      some (-(Int.ofNat (rest.foldl (fun acc c => acc * 10 + (c.toNat - 48)) 0)))
    else none
  | cs =>
    if cs.all Char.isDigit then
      some (Int.ofNat (cs.foldl (fun acc c => acc * 10 + (c.toNat - 48)) 0))
    else none

/-- Modelled from the spec: column coercion for one column, the per-column
part of `convert_change_data` from the external `realtime` library (not
under src/).  Per section 4.3 and the MalformedEventColumn policy, a value
whose column metadata declares an integer type is converted from its wire
string to an integer; unknown or missing column-type metadata, or a value
that fails to parse, leaves the value as its raw wire representation. -/
def coerce_column (columns : List Column) (key : String) (v : JValue) : JValue :=
  match columns.find? (fun c => c.name = key) with
  | none => v
  | some c =>
    if c.type = "int4" ∨ c.type = "int8" then
      match v with
      | JValue.str s =>
        match parse_wire_int s with
        | some n => JValue.int n
        | none => v
      | _ => v
    else v

/-- Modelled from the spec: `convert_change_data(columns, record)` from the
external `realtime` library (not under src/) — a pure function returning a
new record in which every column value has been coerced per its metadata
(section 4.3); it does not mutate its argument. -/
def convert_change_data (columns : List Column) (record : Row) : Row :=
  record.map (fun kv => (kv.1, coerce_column columns kv.1 kv.2))

/-- The `records` dict built by `get_payload_records` (`rt.py` line 23):
holds the `new` and `old` row mappings. -/
structure PayloadRecords where
  new : Row
  old : Row
deriving DecidableEq, Repr

/-- Embedding of `SupabaseRealtimeClient.get_payload_records`
(`rt.py` lines 21-30), translated line by line.  Note two facts of the
source mirrored here: the results of both `convert_change_data` calls are
discarded (lines 26 and 29 call the function without using its value), and
the `old` entry is assigned from `payload.record`, not
`payload.old_record` (line 28). -/
def get_payload_records (payload : Payload) : PayloadRecords :=
  let records : PayloadRecords := { new := [], old := [] }
  let records :=
    if payload.type = "INSERT" ∨ payload.type = "UPDATE" then
      let _discarded := convert_change_data payload.columns payload.record
      { records with new := payload.record }
    else records
  let records :=
    if payload.type = "UPDATE" ∨ payload.type = "DELETE" then
      let _discarded := convert_change_data payload.columns payload.old_record
      { records with old := payload.record }
    else records
  records

/-- The enriched payload dict built inside the callbacks of
`SupabaseRealtimeClient.on` / `async_on` (`rt.py` lines 33-43): envelope
fields copied from the raw payload, then `new` and `old` merged in from
`get_payload_records`. -/
structure ChangeEvent where
  schema : String
  table : String
  commit_timestamp : String
  event_type : String
  new : Row
  old : Row
deriving DecidableEq, Repr

/-- Embedding of the enrichment closure `cb` in
`SupabaseRealtimeClient.on` (`rt.py` lines 33-43): builds the envelope and
merges in the result of `get_payload_records` (the merge overwrites the
empty `new` and `old` defaults, since `get_payload_records` always returns
both keys). -/
def enrich_payload (payload : Payload) : ChangeEvent :=
  let r := get_payload_records payload
  { schema := payload.schema
    table := payload.table
    commit_timestamp := payload.commit_timestamp
    event_type := payload.type
    new := r.new
    old := r.old }

/-- Embedding of the topic expression in `SupabaseRealtimeClient.__init__`
(`rt.py` lines 14-18). -/
def derive_topic (schema table_name : String) : String :=
  if table_name = "*" then "realtime:" ++ schema
  else "realtime:" ++ schema ++ ":" ++ table_name

/-- A realtime channel handle as returned by `socket.set_channel(topic)`
(`rt.py` line 19).  The numeric `id`, drawn from a per-client counter,
models Python object identity: two handles are the same instance exactly
when their ids are equal. -/
structure RtChan where
  id : Nat
  topic : String
deriving DecidableEq, Repr

/-- A handler value registered on a channel for a transport event:
either a closure that, when the event fires, invokes the state callback
with the given tag (a lambda in the source), or the value that resulted
from calling the state callback eagerly at registration time (the
`callback("SUBSCRIBED")` argument in the source), or an event listener
wrapped by the enrichment closure of `on`. -/
inductive HandlerVal where
  | deferred (tag : String)
  | precomputed
  | listener
deriving DecidableEq, Repr

/-- Combined state of one `SupabaseClient`'s realtime side: the
`_realtime_clients` registry keyed by table name (`client.py` line 72),
the object-identity counter, the configured `settings.client_schema`,
the log of join requests sent on the shared socket (one topic entry per
join frame), and the handlers registered on the socket's channels. -/
structure ClientRtState where
  clients : List (String × RtChan)
  next_id : Nat
  client_schema : String
  join_log : List String
  handlers : List (String × String × HandlerVal)
deriving DecidableEq, Repr

/-- The realtime state of a freshly constructed client: empty registry,
no joins sent, no handlers, default client schema from the settings
(config.py line 19 gives default "public"). -/
def initClientRtState : ClientRtState :=
  { clients := [], next_id := 0, client_schema := "public",
    join_log := [], handlers := [] }

/-- Association-list lookup used for the `table_name not in
self._realtime_clients` test and indexing (`client.py` lines 126-132). -/
def assoc_find : List (String × RtChan) → String → Option RtChan
  | [], _ => none
  | (k, c) :: rest, t => if k = t then some c else assoc_find rest t

/-- Modelled from the spec: `Socket.set_channel(topic)` of the external
`realtime` library (not under src/), per section 6 `channel(topic) ->
ChannelRef`: creates and returns the multiplexed sub-channel handle for
the topic; side-effect-free apart from allocating the handle — in
particular it issues no join. -/
def set_channel (st : ClientRtState) (topic : String) : RtChan × ClientRtState :=
  ({ id := st.next_id, topic := topic }, { st with next_id := st.next_id + 1 })

/-- Embedding of `SupabaseClient.realtime` (`client.py` lines 112-132):
defaults a missing schema to `settings.client_schema`, returns the cached
channel when the table name is already a key of `_realtime_clients`, and
otherwise constructs a `SupabaseRealtimeClient` (whose `__init__`, `rt.py`
lines 8-19, derives the topic and calls `socket.set_channel`) and caches
it under the table name. -/
def realtime (st : ClientRtState) (table_name : String) (schema : Option String) :
    RtChan × ClientRtState :=
  let sch := schema.getD st.client_schema
  match assoc_find st.clients table_name with
  | some ch => (ch, st)
  | none =>
    let p := set_channel st (derive_topic sch table_name)
    (p.1, { p.2 with clients := p.2.clients ++ [(table_name, p.1)] })

/-- Modelled from the spec: `Channel.join` / `Channel._join` of the
external `realtime` library (not under src/), per section 6 `join
(ChannelRef)`: every call sends one join frame for the channel's topic to
the transport. -/
def channel_join (ch : RtChan) (st : ClientRtState) : ClientRtState :=
  { st with join_log := st.join_log ++ [ch.topic] }

/-- Modelled from the spec: `Channel.on(event, handler)` of the external
`realtime` library (not under src/), per section 6 `onMessage`: records
the handler for the event on the channel's topic. -/
def channel_on (ch : RtChan) (event : String) (h : HandlerVal) (st : ClientRtState) :
    ClientRtState :=
  { st with handlers := st.handlers ++ [(ch.topic, event, h)] }

/-- Embedding of `SupabaseRealtimeClient.on` (`rt.py` lines 32-46):
registers the enrichment-wrapped listener for the event filter via
`self.subscription.join().on(event, cb)`; the `join()` call sends one
join frame each time a listener is registered. -/
def rt_on (ch : RtChan) (event : String) (st : ClientRtState) : ClientRtState :=
  let st := channel_join ch st
  channel_on ch event HandlerVal.listener st

/-- Embedding of `SupabaseRealtimeClient.subscribe` (`rt.py` lines 65-74).
Python evaluates arguments eagerly, so in
`self.subscription.join().on("ok", callback("SUBSCRIBED"))` the state
callback is invoked with `"SUBSCRIBED"` during the subscribe call itself
and its return value is what gets registered as the `"ok"` handler
(`HandlerVal.precomputed`); the `"error"` and `"timeout"` handlers are
lambdas, registered without invoking the callback
(`HandlerVal.deferred`).  Each of the three `join()` calls sends one join
frame.  Returns the transport state together with the trace of state
callback invocations performed during the call itself. -/
def subscribe (ch : RtChan) (st : ClientRtState) : ClientRtState × List String :=
  let st := channel_join ch st
  let cb_trace : List String := ["SUBSCRIBED"]
  let st := channel_on ch "ok" HandlerVal.precomputed st
  let st := channel_join ch st
  let st := channel_on ch "error" (HandlerVal.deferred "SUBSCRIPTION_ERROR") st
  let st := channel_join ch st
  let st := channel_on ch "timeout" (HandlerVal.deferred "RETRYING_AFTER_TIMEOUT") st
  (st, cb_trace)

/-- Embedding of `SupabaseRealtimeClient.async_subscribe` (`rt.py` lines
76-90): awaits `self.subscription._join()` three times, once before each
handler registration, and like the synchronous variant invokes
`callback("SUBSCRIBED")` eagerly, registering its return value as the
`"ok"` handler while the `"error"` and `"timeout"` handlers are deferred
lambdas.  Returns the transport state and the trace of state callback
invocations performed during the call itself. -/
def async_subscribe (ch : RtChan) (st : ClientRtState) : ClientRtState × List String :=
  let st := channel_join ch st
  let cb_trace : List String := ["SUBSCRIBED"]
  let st := channel_on ch "ok" HandlerVal.precomputed st
  let st := channel_join ch st
  let st := channel_on ch "error" (HandlerVal.deferred "SUBSCRIPTION_ERROR") st
  let st := channel_join ch st
  let st := channel_on ch "timeout" (HandlerVal.deferred "RETRYING_AFTER_TIMEOUT") st
  (st, cb_trace)

/-- HTTP header mapping, insertion ordered (a Python dict of headers). -/
abbrev Headers := List (String × String)

/-- Python dict assignment `h[k] = v`: update in place (keeping the
position) when the key is present, append at the end otherwise. -/
def set_header : Headers → String → String → Headers
  | [], k, v => [(k, v)]
  | (k1, v1) :: rest, k, v =>
    if k1 = k then (k, v) :: rest else (k1, v1) :: set_header rest k v

/-- Header lookup `h.get(k)`. -/
def header_get : Headers → String → Option String
  | [], _ => none
  | (k, v) :: rest, q => if k = q then some v else header_get rest q

/-- Python exceptions raised by the embedded code. -/
inductive PyErr where
  | attributeError
  | valueError (msg : String)
deriving DecidableEq, Repr

/-- The header-carrying shape shared by `SupabasePostgrestClient`
(`pgrest.py`), `FunctionsClient` (`funcs.py`) and
`SupabaseStorageClient` (`storage.py`): a `default_headers` dict and a
lazily created session (`_session`); when the session exists it carries
its own live header dict. -/
structure HttpClientModel where
  default_headers : Headers
  session : Option Headers
deriving DecidableEq, Repr

/-- The headers a collaborator client sends after setup: the session's
live headers when a session has been created, else its default headers
(which seed the next created session). -/
def effective_headers (c : HttpClientModel) : Headers :=
  match c.session with
  | some hs => hs
  | none => c.default_headers

/-- Python truthiness of an optional string: None and the empty string
are falsy. -/
def truthyStr : Option String → Bool
  | none => false
  | some s => s ≠ ""

/-- Embedding of `SupabasePostgrestClient.auth` (`pgrest.py` lines
166-196): with a truthy token, writes `Authorization: Bearer <token>`
into the session headers when a session exists, else into
`default_headers`; with a falsy token but truthy username, installs basic
authentication (the encoded basic credential is abstracted here as
`"Basic " ++ username` since no claim depends on its exact encoding);
with neither, raises `ValueError`. -/
def pgrest_auth (c : HttpClientModel) (token username : Option String)
    (password : String) : Except PyErr HttpClientModel :=
  if truthyStr token then
    let t := token.getD ""
    match c.session with
    | some hs =>
      Except.ok { c with session := some (set_header hs "Authorization" ("Bearer " ++ t)) }
    | none =>
      Except.ok { c with default_headers := set_header c.default_headers "Authorization" ("Bearer " ++ t) }
  else if truthyStr username then
    let u := username.getD ""
    let _pw := password
    match c.session with
    | some hs =>
      Except.ok { c with session := some (set_header hs "Authorization" ("Basic " ++ u)) }
    | none =>
      Except.ok { c with default_headers := set_header c.default_headers "Authorization" ("Basic " ++ u) }
  else
    Except.error (PyErr.valueError "Neither bearer token or basic authentication scheme is provided")

/-- Embedding of `FunctionsClient.set_auth` (`funcs.py` lines 49-60):
writes `Authorization: Bearer <token>` into the session headers when
`_session` is truthy, else into `default_headers`. -/
def functions_set_auth (c : HttpClientModel) (token : String) : HttpClientModel :=
  match c.session with
  | some hs => { c with session := some (set_header hs "Authorization" ("Bearer " ++ token)) }
  | none => { c with default_headers := set_header c.default_headers "Authorization" ("Bearer " ++ token) }

/-- Modelled from the spec: the gotrue client `set_auth(access_token)`
reached through `SupabaseAuthClient.set_auth` (`auth.py` lines 592-612)
— the gotrue library is not under src/.  Per the wrapper docstring it
overrides the JWT the auth client sends on subsequent requests. -/
structure AuthClientModel where
  access_token : Option String
deriving DecidableEq, Repr

/-- Embedding of `SupabaseAuthClient.set_auth` (`auth.py` lines 592-612)
over the modelled gotrue client: stores the new JWT. -/
def auth_set_auth (_c : AuthClientModel) (token : String) : AuthClientModel :=
  { access_token := some token }

/-- The four collaborator clients a `SupabaseClient` constructs
(`client.py` lines 56-83): postgrest, auth, storage, functions. -/
structure ClientModel where
  postgrest : HttpClientModel
  auth : AuthClientModel
  storage : HttpClientModel
  functions : HttpClientModel
deriving DecidableEq, Repr

/-- Embedding of `SupabaseClient.set_auth` (`client.py` lines 85-102):
calls `self.postgrest.auth(token, username, password)`, then
`self.auth.set_auth(access_token=token)`, then
`self._functions.set_auth(token)`.  The storage client is not touched by
any line of the method. -/
def client_set_auth (c : ClientModel) (token : String) (username : Option String)
    (password : String) : Except PyErr ClientModel :=
  match pgrest_auth c.postgrest (some token) username password with
  | Except.error e => Except.error e
  | Except.ok pg =>
    Except.ok { c with
      postgrest := pg
      auth := auth_set_auth c.auth token
      functions := functions_set_auth c.functions token }

/-- The settings object of `aiosupabase/utils/config.py`
(`SupabaseSettings`): environment-derived url and key (both default
None), client schema (default "public"), and the extra headers field
feeding the `default_headers` property. -/
structure SupabaseSettings where
  url : Option String
  key : Option String
  client_schema : Option String
  headers : Headers
deriving DecidableEq, Repr

/-- The `default_headers` property of `SupabaseSettings` (`config.py`
lines 81-88): static client headers merged with the configured extra
headers. -/
def SupabaseSettings.default_headers (s : SupabaseSettings) : Headers :=
  [("X-Client-Info", "aiosupabase"), ("Accept", "application/json"),
   ("Content-Type", "application/json")] ++ s.headers

/-- The module-global settings object `settings = SupabaseSettings()`
(`config.py` line 142), with its environment-derived fields at their
declared defaults. -/
def sb_settings : SupabaseSettings :=
  { url := none, key := none, client_schema := some "public", headers := [] }

/-- The attributes assigned by the front of `SupabaseClient.__init__`
(`client.py` lines 50-53). -/
structure InitFront where
  settings : Option SupabaseSettings
  url : Option String
  key : Option String
  default_headers : Headers
deriving DecidableEq, Repr

/-- Embedding of the front of `SupabaseClient.__init__` (`client.py`
lines 50-53).  Line 50 reads `settings if settings is None else
sb_settings`: a caller-supplied settings object is discarded in favor of
the module global, and a None argument is stored as None.  Lines 51-53
then read `url`, `key` and `default_headers` from `self.settings` when
the corresponding argument was not passed; when `self.settings` is None
that is an attribute access on None and raises `AttributeError`.  All
code past line 53 runs only if these lines did not raise, so an error
here is an error of the whole constructor.  The helper `resolve_opt`
models one `x if x is not None else self.settings.attr` line: when the
argument is missing it reads the attribute off the stored settings,
raising `AttributeError` when the stored settings is None. -/
def resolve_opt (arg : Option String) (stored : Option SupabaseSettings)
    (f : SupabaseSettings → Option String) : Except PyErr (Option String) :=
  match arg with
  | some v => Except.ok (some v)
  | none =>
    match stored with
    | none => Except.error PyErr.attributeError
    | some s => Except.ok (f s)

/-- Embedding of lines 50-53 of `SupabaseClient.__init__` as a whole,
chaining the settings selection of line 50 with the three attribute
resolutions of lines 51-53 in source order. -/
def SupabaseClient_init_front (url key : Option String) (headers : Option Headers)
    (settings : Option SupabaseSettings) : Except PyErr InitFront :=
  let stored : Option SupabaseSettings :=
    match settings with
    | none => none
    | some _ => some sb_settings
  match resolve_opt url stored (fun s => s.url) with
  | Except.error e => Except.error e
  | Except.ok u =>
    match resolve_opt key stored (fun s => s.key) with
    | Except.error e => Except.error e
    | Except.ok k =>
      match headers with
      | some v =>
        Except.ok { settings := stored, url := u, key := k, default_headers := v }
      | none =>
        match stored with
        | none => Except.error PyErr.attributeError
        | some s =>
          Except.ok { settings := stored, url := u, key := k,
                      default_headers := s.default_headers }

/-- Registry-and-transport state for the unsubscribe operation: the
topic-keyed channel registrations and the log of leave messages sent to
the transport. -/
structure UnsubState where
  channels : List (String × RtChan)
  leave_log : List String
deriving DecidableEq, Repr

/-- Modelled from the spec: `unsubscribe` (sections 4.2 and 6).  The
realtime layer under src/ (`aiosupabase/schemas/rt.py`) defines no
unsubscribe; the operation exists only in the spec's subscription-handle
contract.  Per section 4.2 it removes the channel's registration from
the transport and from the registry, sending one leave message, and is
idempotent: when the topic is not registered it does nothing and raises
no error. -/
def unsubscribe (st : UnsubState) (topic : String) : UnsubState :=
  if st.channels.any (fun kv => kv.1 == topic) then
    { channels := st.channels.filter (fun kv => !(kv.1 == topic)),
      leave_log := st.leave_log ++ [topic] }
  else st

/-- A raw INSERT frame carrying the row {id: 1, name: "a"}. -/
def p_insert : Payload :=
  { type := "INSERT", schema := "public", table := "todos",
    commit_timestamp := "2026-01-01T00:00:00Z",
    record := [("id", JValue.int 1), ("name", JValue.str "a")],
    old_record := [], columns := [] }

/-- A raw UPDATE frame with current row {id: 1, name: "b"} and previous
row {id: 1, name: "a"}. -/
def p_update : Payload :=
  { type := "UPDATE", schema := "public", table := "todos",
    commit_timestamp := "2026-01-01T00:00:01Z",
    record := [("id", JValue.int 1), ("name", JValue.str "b")],
    old_record := [("id", JValue.int 1), ("name", JValue.str "a")],
    columns := [] }

/-- A raw DELETE frame with empty current record and previous row
{id: 1, name: "a"}. -/
def p_delete : Payload :=
  { type := "DELETE", schema := "public", table := "todos",
    commit_timestamp := "2026-01-01T00:00:02Z",
    record := [],
    old_record := [("id", JValue.int 1), ("name", JValue.str "a")],
    columns := [] }

/-- A raw INSERT frame whose column metadata declares `id` as `int8` and
whose wire record carries the string representation "1". -/
def p_coerce : Payload :=
  { type := "INSERT", schema := "public", table := "todos",
    commit_timestamp := "2026-01-01T00:00:03Z",
    record := [("id", JValue.str "1")],
    old_record := [], columns := [{ name := "id", type := "int8" }] }

/-- The channel obtained by the first realtime request for
("public", "todos") on a fresh client. -/
def ch0 : RtChan := (realtime initClientRtState "todos" (some "public")).1

/-- The client realtime state right after that first request. -/
def st0 : ClientRtState := (realtime initClientRtState "todos" (some "public")).2

/-- A concrete client whose four collaborators all still carry the
original key as bearer token and have no live session. -/
def client0 : ClientModel :=
  { postgrest := { default_headers := [("Authorization", "Bearer oldkey")], session := none }
    auth := { access_token := some "oldkey" }
    storage := { default_headers := [("Authorization", "Bearer oldkey")], session := none }
    functions := { default_headers := [("Authorization", "Bearer oldkey")], session := none } }

/-- A concrete caller-supplied settings object, distinct from the module
global. -/
def s0 : SupabaseSettings :=
  { url := some "https://example.supabase.co", key := some "k0",
    client_schema := some "public", headers := [("X-Custom", "1")] }

/-- Looking up a key freshly appended to an association list that did not
contain it finds the appended entry. -/
theorem assoc_find_append_self (l : List (String × RtChan)) (t : String) (c : RtChan)
    (h : assoc_find l t = none) : assoc_find (l ++ [(t, c)]) t = some c := by
  induction l with
  | nil => simp [assoc_find]
  | cons kv rest ih =>
    obtain ⟨k, v⟩ := kv
    by_cases hk : k = t
    · simp [assoc_find, hk] at h
    · simp [assoc_find, hk] at h ⊢
      exact ih h

/-- Python dict assignment followed by lookup of the same key returns the
assigned value. -/
theorem header_get_set (hs : Headers) (k v : String) :
    header_get (set_header hs k v) k = some v := by
  induction hs with
  | nil => simp [set_header, header_get]
  | cons kv rest ih =>
    obtain ⟨k1, v1⟩ := kv
    by_cases hk : k1 = k
    · simp [set_header, hk, header_get]
    · simp [set_header, hk, header_get, ih]

/-- After `FunctionsClient.set_auth`, the headers the functions client
sends carry the new bearer token. -/
theorem functions_set_auth_effective (c : HttpClientModel) (token : String) :
    header_get (effective_headers (functions_set_auth c token)) "Authorization"
      = some ("Bearer " ++ token) := by
  cases hs : c.session with
  | some hss => simp [functions_set_auth, effective_headers, hs, header_get_set]
  | none => simp [functions_set_auth, effective_headers, hs, header_get_set]

/-- With a nonempty bearer token, `SupabasePostgrestClient.auth` succeeds
and the headers the postgrest client sends carry the new token. -/
theorem pgrest_auth_token_effective (c : HttpClientModel) (token : String)
    (h : token ≠ "") :
    ∃ c2, pgrest_auth c (some token) none "" = Except.ok c2
      ∧ header_get (effective_headers c2) "Authorization"
          = some ("Bearer " ++ token) := by
  have htr : truthyStr (some token) = true := by simp [truthyStr, h]
  cases hs : c.session with
  | some hss =>
    exact ⟨{ c with session := some (set_header hss "Authorization" ("Bearer " ++ token)) },
      by simp [pgrest_auth, htr, hs],
      by simp [effective_headers, header_get_set]⟩
  | none =>
    exact ⟨{ c with default_headers := set_header c.default_headers "Authorization" ("Bearer " ++ token) },
      by simp [pgrest_auth, htr, hs],
      by simp [effective_headers, hs, header_get_set]⟩

/-- Filtering out every entry with a key never leaves an entry with that
key behind. -/
theorem any_filter_not (l : List (String × RtChan)) (t : String) :
    (l.filter (fun kv => !(kv.1 == t))).any (fun kv => kv.1 == t) = false := by
  induction l with
  | nil => simp
  | cons kv rest ih =>
    by_cases hk : kv.1 == t
    · simp [List.filter_cons, hk, ih]
    · simp [List.filter_cons, hk, ih]

/-!
Claim theorems.
-/

/-- C6: for every schema string s and table string t, the topic of the
channel created for (s, t) — on a client whose registry does not yet hold
an entry for t — equals "realtime:" ++ s when t is the wildcard "*", and
"realtime:" ++ s ++ ":" ++ t otherwise. -/
theorem C6_topic_derivation (s t : String) (st : ClientRtState)
    (hfresh : assoc_find st.clients t = none) :
    (t = "*" → (realtime st t (some s)).1.topic = "realtime:" ++ s)
    ∧ (t ≠ "*" → (realtime st t (some s)).1.topic = "realtime:" ++ s ++ ":" ++ t) := by
  constructor
  · intro ht
    subst ht
    simp [realtime, hfresh, set_channel, derive_topic]
  · intro ht
    simp [realtime, hfresh, set_channel, derive_topic, ht]

/-- C6 witness: the channel for ("public", "*") has topic
"realtime:public" and the channel for ("public", "users") has topic
"realtime:public:users". -/
theorem C6_topic_derivation_witness :
    (realtime initClientRtState "*" (some "public")).1.topic = "realtime:public"
    ∧ (realtime initClientRtState "users" (some "public")).1.topic
        = "realtime:public:users" :=
  ⟨(C6_topic_derivation "public" "*" initClientRtState rfl).1 rfl,
   (C6_topic_derivation "public" "users" initClientRtState rfl).2 (by decide)⟩

/-- C8: for every raw payload whose event_type is INSERT, the normalized
change record has event_type INSERT, new equal to the raw payload's
current-row record and old empty. -/
theorem C8_insert_normalization (p : Payload) (h : p.type = "INSERT") :
    (enrich_payload p).event_type = "INSERT"
    ∧ (enrich_payload p).new = p.record
    ∧ (enrich_payload p).old = [] := by
  refine ⟨by simp [enrich_payload, h], ?_, ?_⟩
  · simp [enrich_payload, get_payload_records, h]
  · simp [enrich_payload, get_payload_records, h]

/-- C8 witness: the INSERT frame with record {id: 1, name: "a"} normalizes
to event_type INSERT, new = {id: 1, name: "a"}, old = {}. -/
theorem C8_insert_normalization_witness :
    (enrich_payload p_insert).event_type = "INSERT"
    ∧ (enrich_payload p_insert).new = [("id", JValue.int 1), ("name", JValue.str "a")]
    ∧ (enrich_payload p_insert).old = [] := by
  have h := C8_insert_normalization p_insert rfl
  exact ⟨h.1, h.2.1, h.2.2⟩

/-- C1: refuted on the code — get_payload_records assigns the old mapping
from payload.record rather than from payload.old_record (rt.py line 28),
so the UPDATE frame p_update gets old = {id: 1, name: "b"} (the current
row) instead of the claimed {id: 1, name: "a"}, and the DELETE frame
p_delete gets old = {} (and new = {}) instead of old = {id: 1, name: "a"}. -/
theorem C1_old_from_record_bug :
    (enrich_payload p_update).old = [("id", JValue.int 1), ("name", JValue.str "b")]
    ∧ (enrich_payload p_update).old ≠ p_update.old_record
    ∧ (enrich_payload p_delete).new = []
    ∧ (enrich_payload p_delete).old = []
    ∧ (enrich_payload p_delete).old ≠ p_delete.old_record := by decide

/-- C4: refuted on the code — both convert_change_data calls in
get_payload_records discard their result (rt.py lines 26 and 29), so for
the INSERT frame p_coerce whose metadata declares id as int8 and whose
wire record is {id: "1"}, the coerced record would be {id: 1} but the
normalized event carries the raw wire record {id: "1"}. -/
theorem C4_coercion_discarded :
    convert_change_data p_coerce.columns p_coerce.record = [("id", JValue.int 1)]
    ∧ (enrich_payload p_coerce).new = [("id", JValue.str "1")]
    ∧ (enrich_payload p_coerce).new
        ≠ convert_change_data p_coerce.columns p_coerce.record := by decide

/-- C2: refuted on the code — the registry is keyed by table name alone
(client.py line 126), so requesting the same table under two different
schemas returns the same channel instance even though the derived topics
differ. -/
theorem C2_schema_ignored_counterexample :
    (realtime (realtime initClientRtState "users" (some "public")).2
        "users" (some "private")).1
      = (realtime initClientRtState "users" (some "public")).1
    ∧ derive_topic "public" "users" ≠ derive_topic "private" "users" := by decide

/-- C2 amended: channel handles are cached per table name: starting from a
fresh client, the handles of two requests are the same instance exactly
when their table arguments are equal (regardless of schema); the first
handle is bound to the topic derived from its own (schema, table), a
second request with the same table returns that handle still bound to the
first request's topic, and a request with a different table gets a handle
bound to its own topic. -/
theorem C2_registry_keyed_by_table (s1 t1 s2 t2 : String) :
    ((realtime (realtime initClientRtState t1 (some s1)).2 t2 (some s2)).1
        = (realtime initClientRtState t1 (some s1)).1
      ↔ t2 = t1)
    ∧ (realtime initClientRtState t1 (some s1)).1.topic = derive_topic s1 t1
    ∧ (t2 = t1 →
        (realtime (realtime initClientRtState t1 (some s1)).2 t2 (some s2)).1.topic
          = derive_topic s1 t1)
    ∧ (t2 ≠ t1 →
        (realtime (realtime initClientRtState t1 (some s1)).2 t2 (some s2)).1.topic
          = derive_topic s2 t2) := by
  by_cases h : t2 = t1
  · subst h
    simp [realtime, initClientRtState, set_channel, assoc_find]
  · have h1 : t1 ≠ t2 := fun hh => h hh.symm
    simp [realtime, initClientRtState, set_channel, assoc_find, h, h1, RtChan.mk.injEq]

/-- C2 amended witness: concrete instances of the two topic conclusions. -/
theorem C2_registry_keyed_by_table_witness :
    ((realtime (realtime initClientRtState "users" (some "public")).2
        "users" (some "private")).1.topic
      = derive_topic "public" "users")
    ∧ ((realtime (realtime initClientRtState "users" (some "public")).2
        "profiles" (some "private")).1.topic
      = derive_topic "private" "profiles") :=
  ⟨(C2_registry_keyed_by_table "public" "users" "private" "users").2.2.1 rfl,
   (C2_registry_keyed_by_table "public" "users" "private" "profiles").2.2.2 (by decide)⟩

/-- C7: refuted on the code as stated — a single async_subscribe call on
the channel for ("public", "todos") sends three join frames for its
topic, so the "exactly one join request is ever sent for that topic" part
fails. -/
theorem C7_triple_join_counterexample :
    (async_subscribe ch0 st0).1.join_log
      = ["realtime:public:todos", "realtime:public:todos", "realtime:public:todos"]
    ∧ (async_subscribe ch0 st0).1.join_log.length ≠ 1 := by decide

/-- C7 amended: requesting the subscription handle twice with identical
arguments returns the same channel instance and the second request leaves
the whole client state unchanged; the registry request itself never sends
a join frame.  Join frames are issued elsewhere: one per on() listener
registration and three per subscribe() call, so the number of join frames
sent for a topic is not in general one. -/
theorem C7_idempotent_lookup_no_join (st : ClientRtState) (t : String)
    (s : Option String) (ch : RtChan) (e : String) :
    (realtime (realtime st t s).2 t s).1 = (realtime st t s).1
    ∧ (realtime (realtime st t s).2 t s).2 = (realtime st t s).2
    ∧ (realtime st t s).2.join_log = st.join_log
    ∧ (rt_on ch e st).join_log = st.join_log ++ [ch.topic]
    ∧ (subscribe ch st).1.join_log = st.join_log ++ [ch.topic, ch.topic, ch.topic] := by
  have hmain : (realtime (realtime st t s).2 t s).1 = (realtime st t s).1
      ∧ (realtime (realtime st t s).2 t s).2 = (realtime st t s).2
      ∧ (realtime st t s).2.join_log = st.join_log := by
    cases hfind : assoc_find st.clients t with
    | some c => simp [realtime, hfind]
    | none =>
      have h2 := assoc_find_append_self st.clients t
        { id := st.next_id, topic := derive_topic (s.getD st.client_schema) t } hfind
      simp [realtime, hfind, set_channel, h2]
  exact ⟨hmain.1, hmain.2.1, hmain.2.2,
    by simp [rt_on, channel_join, channel_on],
    by simp [subscribe, channel_join, channel_on]⟩

/-- C3: refuted on the code — subscribe(stateCallback) invokes the
callback with "SUBSCRIBED" during the subscribe call itself (rt.py line
67 passes callback("SUBSCRIBED"), already invoked, where the error and
timeout handlers are deferred lambdas) and registers the call's return
value as the "ok" handler; so the callback fires before any transport
response arrives, and no deferred "SUBSCRIBED" handler is registered to
fire on the "ok" acknowledgment.  The async variant invokes the callback
eagerly the same way. -/
theorem C3_eager_subscribed_callback :
    (subscribe ch0 st0).2 = ["SUBSCRIBED"]
    ∧ (subscribe ch0 st0).1.handlers
      = [(ch0.topic, "ok", HandlerVal.precomputed),
         (ch0.topic, "error", HandlerVal.deferred "SUBSCRIPTION_ERROR"),
         (ch0.topic, "timeout", HandlerVal.deferred "RETRYING_AFTER_TIMEOUT")]
    ∧ (async_subscribe ch0 st0).2 = ["SUBSCRIBED"] := by decide

/-- C5: refuted on the code — SupabaseClient.set_auth updates the
postgrest, auth and functions clients but contains no call into the
storage proxy, whose headers keep the old bearer token. -/
theorem C5_storage_left_out_counterexample :
    (match client_set_auth client0 "newtoken" none "" with
     | Except.ok c => header_get (effective_headers c.storage) "Authorization"
     | Except.error _ => none)
      = some "Bearer oldkey"
    ∧ "Bearer oldkey" ≠ "Bearer newtoken" := by decide

/-- C5 amended: a single set_auth(token) call with a nonempty token pushes
the updated bearer token into the postgrest client, the functions client
and the auth client; the storage proxy is not part of the fan-out and is
left unchanged. -/
theorem C5_set_auth_fanout_without_storage (c : ClientModel) (token : String)
    (h : token ≠ "") :
    ∃ c2, client_set_auth c token none "" = Except.ok c2
      ∧ header_get (effective_headers c2.postgrest) "Authorization"
          = some ("Bearer " ++ token)
      ∧ header_get (effective_headers c2.functions) "Authorization"
          = some ("Bearer " ++ token)
      ∧ c2.auth.access_token = some token
      ∧ c2.storage = c.storage := by
  obtain ⟨pg, hpg, hpgh⟩ := pgrest_auth_token_effective c.postgrest token h
  have hfun := functions_set_auth_effective c.functions token
  exact ⟨{ c with
      postgrest := pg
      auth := auth_set_auth c.auth token
      functions := functions_set_auth c.functions token },
    by simp [client_set_auth, hpg], hpgh, hfun, rfl, rfl⟩

/-- C5 amended witness: the fan-out at the concrete client client0 and
token "newtoken". -/
theorem C5_set_auth_fanout_without_storage_witness :
    ∃ c2, client_set_auth client0 "newtoken" none "" = Except.ok c2
      ∧ header_get (effective_headers c2.postgrest) "Authorization"
          = some ("Bearer " ++ "newtoken")
      ∧ header_get (effective_headers c2.functions) "Authorization"
          = some ("Bearer " ++ "newtoken")
      ∧ c2.auth.access_token = some "newtoken"
      ∧ c2.storage = client0.storage :=
  C5_set_auth_fanout_without_storage client0 "newtoken" (by decide)

/-- C9: for every registry state and topic, a second unsubscribe in
sequence is a no-op: it changes neither the channel registrations nor the
leave-message log (and the operation is total, so no error is raised). -/
theorem C9_unsubscribe_idempotent (st : UnsubState) (topic : String) :
    unsubscribe (unsubscribe st topic) topic = unsubscribe st topic := by
  by_cases h : st.channels.any (fun kv => kv.1 == topic) = true
  · have h1 : unsubscribe st topic =
        { channels := st.channels.filter (fun kv => !(kv.1 == topic)),
          leave_log := st.leave_log ++ [topic] } := by
      simp only [unsubscribe]
      rw [if_pos h]
    rw [h1]
    simp [unsubscribe, any_filter_not]
  · have h1 : unsubscribe st topic = st := by
      simp only [unsubscribe]
      rw [if_neg h]
    rw [h1]
    exact h1

/-- C10: SupabaseClient.__init__ never stores a caller-supplied settings
object: with any non-None settings argument the construction behaves
exactly as with the module-global settings and the stored settings
attribute is the module global; with settings None the stored attribute
is None and the constructor raises AttributeError whenever any of url,
key or headers is not explicitly passed. -/
theorem C10_settings_argument_discarded (s : SupabaseSettings) (u k : Option String)
    (hd : Option Headers) :
    (SupabaseClient_init_front u k hd (some s)
      = SupabaseClient_init_front u k hd (some sb_settings))
    ∧ (match SupabaseClient_init_front u k hd (some s) with
       | Except.ok r => r.settings = some sb_settings
       | Except.error _ => True)
    ∧ (match SupabaseClient_init_front u k hd none with
       | Except.ok r => r.settings = none
       | Except.error _ => True)
    ∧ ((u = none ∨ k = none ∨ hd = none) →
        SupabaseClient_init_front u k hd none = Except.error PyErr.attributeError) := by
  refine ⟨rfl, ?_, ?_, ?_⟩
  · cases u <;> cases k <;> cases hd <;> trivial
  · cases u <;> cases k <;> cases hd <;> trivial
  · intro hdisj
    rcases hdisj with h | h | h
    · subst h; rfl
    · subst h; cases u <;> rfl
    · subst h; cases u <;> cases k <;> rfl

/-- C10 witness: at the concrete settings object s0 the construction
matches the module-global run, and with no settings and no url the
constructor raises AttributeError. -/
theorem C10_settings_argument_discarded_witness :
    (SupabaseClient_init_front none none none (some s0)
      = SupabaseClient_init_front none none none (some sb_settings))
    ∧ SupabaseClient_init_front none none none none
        = Except.error PyErr.attributeError :=
  ⟨(C10_settings_argument_discarded s0 none none none).1,
   (C10_settings_argument_discarded s0 none none none).2.2.2 (Or.inl rfl)⟩

end Aiosupabase
